import Mathlib

/-!
Verification of the BlackRoad donor-management core (`src/donor_management.py`).

The SQLite-backed service is shallowly embedded as pure functions over an
explicit store state `DB` (the three tables `donors`, `donations`,
`campaigns`, kept in rowid/insertion order).  Monetary amounts are modelled
as exact rationals (`ℚ`).  Nondeterministic inputs of the Python code
(`uuid.uuid4()`, `datetime.utcnow()`) are passed in as explicit parameters.
A Python function that raises is embedded with `Except`; a function that
returns `Optional[...]` is embedded with `Option`.
-/

-- ---------------------------------------------------------------------------
-- Enums (donor_management.py lines 19-51)
-- ---------------------------------------------------------------------------

inductive DonorType where
  | individual
  | corporate
  | foundation
deriving DecidableEq, Repr

inductive DonorTier where
  | bronze
  | silver
  | gold
  | platinum
deriving DecidableEq, Repr

/-- `TIER_THRESHOLDS` (lines 32-37). -/
def TIER_THRESHOLDS : DonorTier → ℚ
  | .bronze => 0
  | .silver => 1000
  | .gold => 10000
  | .platinum => 50000

inductive DonationType where
  | one_time
  | recurring
deriving DecidableEq, Repr

inductive DonationMethod where
  | credit_card
  | check
  | wire
  | crypto
  | cash
  | stock
deriving DecidableEq, Repr

-- ---------------------------------------------------------------------------
-- Dataclasses (lines 58-101)
-- ---------------------------------------------------------------------------

structure Donor where
  id : String
  name : String
  email : String
  phone : String
  type : DonorType
  tier : DonorTier
  total_given : ℚ
  campaigns : List String
  notes : String
  assigned_to : String
  address : String
  tax_id : String
  created_at : String
  updated_at : String
  last_donation_at : Option String
deriving DecidableEq, Repr

structure Donation where
  id : String
  donor_id : String
  amount : ℚ
  campaign : String
  type : DonationType
  method : DonationMethod
  acknowledged : Bool
  tax_receipt_sent : Bool
  received_at : String
  notes : String
  reference_number : String
deriving DecidableEq, Repr

structure Campaign where
  id : String
  name : String
  goal : ℚ
  start_date : String
  end_date : String
  description : String
  status : String
  created_at : String
deriving DecidableEq, Repr

/-- The store state: the three SQLite tables, rows in rowid (insertion)
order.  `SELECT ... WHERE key = ?` on a primary/unique key is `List.find?`
(first match), `UPDATE ... WHERE key = ?` maps the update over all matching
rows. -/
structure DB where
  donors : List Donor
  donations : List Donation
  campaigns : List Campaign
deriving DecidableEq, Repr

-- ---------------------------------------------------------------------------
-- Python-semantics helpers
-- ---------------------------------------------------------------------------

/-- Python `x or default` for `x : Optional[str]`: both `None` and the empty
string are falsy. -/
def pyOr (x : Option String) (default : String) : String :=
  match x with
  | none => default
  | some s => if s.isEmpty then default else s

/-- Floor of a rational as an integer (`Int.fdiv` is floor division and
`q.den` is positive, so this is the true floor). -/
def ratFloor (q : ℚ) : ℤ :=
  Int.fdiv q.num (q.den : ℤ)

/-- Round a rational to the nearest integer, ties to even (the rounding
used by Python's built-in `round`). -/
def roundHalfEven (q : ℚ) : ℤ :=
  let f := ratFloor q
  let r := q - (f : ℚ)
  if r < 1 / 2 then f
  else if 1 / 2 < r then f + 1
  else if f % 2 = 0 then f else f + 1

/-- Python `round(q, ndigits)` on exact rationals. -/
def pyRound (q : ℚ) (ndigits : ℕ) : ℚ :=
  (roundHalfEven (q * (10 : ℚ) ^ ndigits) : ℚ) / (10 : ℚ) ^ ndigits

-- ---------------------------------------------------------------------------
-- Campaign management (lines 180-208)
-- ---------------------------------------------------------------------------

/-- `create_campaign` (lines 180-190).  `newId`/`now` stand for
`uuid.uuid4()` / `datetime.utcnow()`.  The UNIQUE constraint on the campaign
name (a Conflict error) is outside the claims and not modelled. -/
def create_campaign (db : DB) (newId now : String) (name : String) (goal : ℚ)
    (start_date end_date description : String) : DB × Campaign :=
  let c : Campaign :=
    { id := newId, name := name, goal := goal, start_date := start_date,
      end_date := end_date, description := description, status := "active",
      created_at := now }
  ({ db with campaigns := db.campaigns ++ [c] }, c)

/-- `get_campaign` (lines 192-201): `SELECT * FROM campaigns WHERE name = ?`. -/
def get_campaign (db : DB) (name : String) : Option Campaign :=
  db.campaigns.find? (fun c => c.name == name)

-- ---------------------------------------------------------------------------
-- Donor CRUD (lines 214-255)
-- ---------------------------------------------------------------------------

/-- `add_donor` (lines 214-243).  The UNIQUE constraint on email (a Conflict
error) is outside the claims and not modelled. -/
def add_donor (db : DB) (newId now : String) (name email : String)
    (phone : String) (donor_type : DonorType)
    (notes assigned_to address tax_id : String) : DB × Donor :=
  let donor : Donor :=
    { id := newId, name := name, email := email, phone := phone,
      type := donor_type, tier := .bronze, total_given := 0, campaigns := [],
      notes := notes, assigned_to := assigned_to, address := address,
      tax_id := tax_id, created_at := now, updated_at := now,
      last_donation_at := none }
  ({ db with donors := db.donors ++ [donor] }, donor)

/-- `get_donor` (lines 245-249): `SELECT * FROM donors WHERE id = ?`. -/
def get_donor (db : DB) (donor_id : String) : Option Donor :=
  db.donors.find? (fun d => d.id == donor_id)

-- ---------------------------------------------------------------------------
-- Donations (lines 281-368)
-- ---------------------------------------------------------------------------

/-- The `INSERT INTO donations` statement (lines 303-311). -/
def insertDonation (db : DB) (donation : Donation) : DB :=
  { db with donations := db.donations ++ [donation] }

/-- The SET clause of the donor-totals UPDATE (lines 314-315). -/
def donorAfterGift (d : Donor) (amount : ℚ) (now : String) : Donor :=
  { d with total_given := d.total_given + amount,
           last_donation_at := some now, updated_at := now }

/-- The `UPDATE donors SET total_given = total_given + ?,
last_donation_at = ?, updated_at = ? WHERE id = ?` statement (lines 313-317). -/
def updateDonorTotals (db : DB) (donor_id : String) (amount : ℚ)
    (now : String) : DB :=
  { db with donors := db.donors.map (fun d =>
      if d.id == donor_id then donorAfterGift d amount now else d) }

/-- The SET clause of the campaign-list UPDATE (line 323). -/
def donorWithCampaigns (d : Donor) (cs : List String) : Donor :=
  { d with campaigns := cs }

/-- The `UPDATE donors SET campaigns = ? WHERE id = ?` statement
(lines 322-325); the new JSON list is computed from the fetched donor. -/
def setDonorCampaigns (db : DB) (donor_id : String) (cs : List String) : DB :=
  { db with donors := db.donors.map (fun d =>
      if d.id == donor_id then donorWithCampaigns d cs else d) }

/-- Lines 318-325: fetch the donor and append the campaign name to its
campaign list when not already present. -/
def updateDonorCampaigns (db : DB) (donor_id campaign : String) : DB :=
  match get_donor db donor_id with
  | some donor =>
      if campaign ∈ donor.campaigns then db
      else setDonorCampaigns db donor_id (donor.campaigns ++ [campaign])
  | none => db

/-- `_calculate_tier` (lines 388-395). -/
def _calculate_tier (total_given : ℚ) : DonorTier :=
  if total_given ≥ TIER_THRESHOLDS .platinum then .platinum
  else if total_given ≥ TIER_THRESHOLDS .gold then .gold
  else if total_given ≥ TIER_THRESHOLDS .silver then .silver
  else .bronze

/-- The SET clause of the tier UPDATE (line 383). -/
def donorWithTier (d : Donor) (tier : DonorTier) (now : String) : Donor :=
  { d with tier := tier, updated_at := now }

/-- `upgrade_tier` (lines 374-386).  `wallClock` stands for the
`datetime.utcnow()` read on line 384. -/
def upgrade_tier (db : DB) (donor_id : String) (wallClock : String) :
    DB × Option Donor :=
  match get_donor db donor_id with
  | none => (db, none)
  | some donor =>
      let new_tier := _calculate_tier donor.total_given
      let db' :=
        if new_tier ≠ donor.tier then
          { db with donors := db.donors.map (fun d =>
              if d.id == donor_id then donorWithTier d new_tier wallClock
              else d) }
        else db
      (db', get_donor db' donor_id)

/-- The body of the `with self.conn` block of `record_donation`
(lines 302-325): one SQLite transaction, committed as a whole when the
block exits. -/
def recordTxn (db : DB) (donor_id : String) (amount : ℚ) (campaign : String)
    (donation : Donation) (now : String) : DB :=
  updateDonorCampaigns
    (updateDonorTotals (insertDonation db donation) donor_id amount now)
    donor_id campaign

/-- The `Donation(...)` constructor call of `record_donation` (lines
296-301): a fresh donation with both flags false. -/
def mkDonation (newId donor_id : String) (amount : ℚ) (campaign : String)
    (donation_type : DonationType) (method : DonationMethod)
    (notes reference_number now : String) : Donation :=
  { id := newId, donor_id := donor_id, amount := amount,
    campaign := campaign, type := donation_type, method := method,
    acknowledged := false, tax_receipt_sent := false,
    received_at := now, notes := notes,
    reference_number := reference_number }

/-- `record_donation` (lines 281-327).  `newId` stands for `uuid.uuid4()`,
`wallClock` for the `datetime.utcnow()` on line 295 and `tierClock` for the
one inside `upgrade_tier`.  The Python method raises `ValueError` when the
donor is unknown; the raise happens before any write, so the store component
of the result is the unchanged input store. -/
def record_donation (db : DB) (donor_id : String) (amount : ℚ)
    (campaign : String) (donation_type : DonationType)
    (method : DonationMethod) (notes reference_number : String)
    (received_at : Option String) (newId wallClock tierClock : String) :
    DB × Except String Donation :=
  match get_donor db donor_id with
  | none => (db, .error ("Donor " ++ donor_id ++ " not found"))
  | some _ =>
      let now := pyOr received_at wallClock
      let donation := mkDonation newId donor_id amount campaign donation_type
        method notes reference_number now
      let db3 := recordTxn db donor_id amount campaign donation now
      let db4 := (upgrade_tier db3 donor_id tierClock).1
      (db4, .ok donation)

/-- The sequence of store states committed (durably visible to a concurrent
reader of the same SQLite file) during one `record_donation` call: the
`with self.conn` block of `record_donation` commits at line 325, and
`upgrade_tier` (called on line 326, outside that block) commits a second,
separate transaction. -/
def record_donation_commits (db : DB) (donor_id : String) (amount : ℚ)
    (campaign : String) (donation_type : DonationType)
    (method : DonationMethod) (notes reference_number : String)
    (received_at : Option String) (newId wallClock tierClock : String) :
    List DB :=
  match get_donor db donor_id with
  | none => []
  | some _ =>
      let now := pyOr received_at wallClock
      let donation := mkDonation newId donor_id amount campaign donation_type
        method notes reference_number now
      let db3 := recordTxn db donor_id amount campaign donation now
      [db3, (upgrade_tier db3 donor_id tierClock).1]

/-- `get_donation` (lines 329-335). -/
def get_donation (db : DB) (donation_id : String) : Option Donation :=
  db.donations.find? (fun d => d.id == donation_id)

/-- `list_donations` (lines 337-352): optional donor/campaign filters, then
`ORDER BY received_at DESC` (latest timestamp first; SQLite leaves the order
of ties unspecified, a stable sort is one admissible choice). -/
def list_donations (db : DB) (donor_id : Option String)
    (campaign : Option String) : List Donation :=
  let rows := db.donations.filter (fun d =>
    (match donor_id with | some i => d.donor_id == i | none => true) &&
    (match campaign with | some c => d.campaign == c | none => true))
  rows.insertionSort (fun a b => b.received_at ≤ a.received_at)

/-- `acknowledge_donation` (lines 354-359): the UPDATE matches zero rows for
an unknown id and the subsequent `get_donation` returns `None`. -/
def acknowledge_donation (db : DB) (donation_id : String) :
    DB × Option Donation :=
  let db' : DB := { db with donations := db.donations.map (fun d =>
      if d.id == donation_id then { d with acknowledged := true } else d) }
  (db', get_donation db' donation_id)

/-- `send_receipt` (lines 361-368). -/
def send_receipt (db : DB) (donation_id : String) : DB × Option Donation :=
  let db' : DB := { db with donations := db.donations.map (fun d =>
      if d.id == donation_id then
        { d with tax_receipt_sent := true, acknowledged := true }
      else d) }
  (db', get_donation db' donation_id)

-- ---------------------------------------------------------------------------
-- Analytics (lines 401-464)
-- ---------------------------------------------------------------------------

/-- The `ltv` report dict (lines 401-421).  The zero-donation branch of the
Python code returns a dict without the `tier` / `first_donation` /
`last_donation` keys; those fields are `Option`s here, `none` when the key
is absent. -/
structure LtvReport where
  donor_id : String
  name : String
  tier : Option DonorTier
  ltv : ℚ
  donation_count : ℕ
  average_gift : ℚ
  first_donation : Option String
  last_donation : Option String
  campaigns : List String
deriving DecidableEq, Repr

/-- The zero/empty report of `ltv`'s no-donations branch (lines 408-409). -/
def zeroLtvReport (donor_id name : String) : LtvReport :=
  { donor_id := donor_id, name := name, tier := none, ltv := 0,
    donation_count := 0, average_gift := 0, first_donation := none,
    last_donation := none, campaigns := [] }

/-- `ltv` (lines 401-421). -/
def ltv (db : DB) (donor_id : String) : Except String LtvReport :=
  match get_donor db donor_id with
  | none => .error ("Donor " ++ donor_id ++ " not found")
  | some donor =>
      let donations := list_donations db (some donor_id) none
      if donations.isEmpty then
        .ok (zeroLtvReport donor_id donor.name)
      else
        let avg := donor.total_given / (donations.length : ℚ)
        .ok { donor_id := donor_id, name := donor.name,
              tier := some donor.tier,
              ltv := pyRound donor.total_given 2,
              donation_count := donations.length,
              average_gift := pyRound avg 2,
              first_donation := (donations.getLast?).map (·.received_at),
              last_donation := (donations.head?).map (·.received_at),
              campaigns := donor.campaigns }

/-- The `campaign_summary` report dict (lines 443-464). -/
structure CampaignSummary where
  campaign : String
  goal : ℚ
  total_raised : ℚ
  progress_pct : ℚ
  donor_count : ℕ
  average_gift : ℚ
  largest_gift : ℚ
  recurring_donors : ℕ
deriving DecidableEq, Repr

/-- Sum of the amounts of the donation rows whose campaign field equals the
given name exactly (the `SUM(amount) ... WHERE campaign = ?` aggregate of
lines 446-449, with `NULL`-on-empty already turned into 0 as the Python
`or 0` does). -/
def totalRaised (db : DB) (campaign_name : String) : ℚ :=
  ((db.donations.filter (fun d => d.campaign == campaign_name)).map
    (fun d => d.amount)).sum

/-- `campaign_summary` (lines 443-464).  The SQL aggregates `SUM`/`AVG`/`MAX`
are `NULL` on an empty row set; the Python `or 0` turns that into 0. -/
def campaign_summary (db : DB) (campaign_name : String) : CampaignSummary :=
  let rows := db.donations.filter (fun d => d.campaign == campaign_name)
  let total_raised : ℚ := totalRaised db campaign_name
  let avg_gift : ℚ :=
    if rows.isEmpty then 0 else total_raised / (rows.length : ℚ)
  let largest : ℚ :=
    match (rows.map (fun d => d.amount)).max? with
    | some m => m
    | none => 0
  let goal : ℚ :=
    match get_campaign db campaign_name with
    | some c => c.goal
    | none => 0
  { campaign := campaign_name, goal := goal,
    total_raised := pyRound total_raised 2,
    progress_pct :=
      if goal ≠ 0 then pyRound (total_raised / goal * 100) 1 else 0,
    donor_count := rows.length,
    average_gift := pyRound avg_gift 2,
    largest_gift := pyRound largest 2,
    recurring_donors :=
      (rows.filter (fun d => d.type == DonationType.recurring)).length }

-- ---------------------------------------------------------------------------
-- Derived quantities the specification talks about
-- ---------------------------------------------------------------------------

/-- Sum of the amounts of all donation rows referencing a donor id. -/
def donated (db : DB) (donor_id : String) : ℚ :=
  ((db.donations.filter (fun d => d.donor_id == donor_id)).map
    (fun d => d.amount)).sum

/-- The campaign names of a donor's donation rows, in insertion order. -/
def campaignTrace (db : DB) (donor_id : String) : List String :=
  (db.donations.filter (fun d => d.donor_id == donor_id)).map
    (fun d => d.campaign)

/-- Distinct elements of a list in order of first appearance. -/
def dedupFirst (l : List String) : List String :=
  l.foldl (fun acc c => if c ∈ acc then acc else acc ++ [c]) []

/-- The running-total invariant of the spec: the stored `total_given` of the
donor row fetched for `donor_id` equals the sum of the amounts of all
donation rows referencing that id. -/
def TotalInv (db : DB) (donor_id : String) : Prop :=
  ∀ d, get_donor db donor_id = some d → d.total_given = donated db donor_id

/-- The campaign-set invariant of the spec: the stored campaign list of the
donor row fetched for `donor_id` equals the distinct campaign names of that
donor's donation rows in order of first appearance. -/
def CampInv (db : DB) (donor_id : String) : Prop :=
  ∀ d, get_donor db donor_id = some d →
    d.campaigns = dedupFirst (campaignTrace db donor_id)

-- ---------------------------------------------------------------------------
-- Sequences of record_donation calls
-- ---------------------------------------------------------------------------

/-- The caller-chosen arguments of one `record_donation` call (together with
the ambient `uuid.uuid4()` / `datetime.utcnow()` values of that call). -/
structure RecArgs where
  amount : ℚ
  campaign : String
  donation_type : DonationType
  method : DonationMethod
  notes : String
  reference_number : String
  received_at : Option String
  newId : String
  wallClock : String
  tierClock : String

/-- One `record_donation` call with bundled arguments. -/
def applyRec (db : DB) (donor_id : String) (a : RecArgs) :
    DB × Except String Donation :=
  record_donation db donor_id a.amount a.campaign a.donation_type a.method
    a.notes a.reference_number a.received_at a.newId a.wallClock a.tierClock

/-- Run a sequence of `record_donation` calls for one donor; `some` is the
final store when every call succeeded, `none` when any call raised. -/
def recordSeq (db : DB) (donor_id : String) : List RecArgs → Option DB
  | [] => some db
  | a :: rest =>
      match (applyRec db donor_id a).2 with
      | Except.ok _ => recordSeq (applyRec db donor_id a).1 donor_id rest
      | Except.error _ => none

-- ---------------------------------------------------------------------------
-- Concrete fixtures used to evaluate the definitions
-- ---------------------------------------------------------------------------

/-- A freshly added donor row (what `add_donor` inserts). -/
def donorA : Donor :=
  { id := "d1", name := "A", email := "a@x", phone := "", type := .individual,
    tier := .bronze, total_given := 0, campaigns := [], notes := "",
    assigned_to := "", address := "", tax_id := "", created_at := "t0",
    updated_at := "t0", last_donation_at := none }

/-- A store holding just `donorA`. -/
def dbA : DB := { donors := [donorA], donations := [], campaigns := [] }

/-- `donorA` as stored after `record_donation dbA "d1" 1500 "Fund" ...`. -/
def donorA' : Donor :=
  { id := "d1", name := "A", email := "a@x", phone := "", type := .individual,
    tier := .silver, total_given := 1500, campaigns := ["Fund"], notes := "",
    assigned_to := "", address := "", tax_id := "", created_at := "t0",
    updated_at := "t2", last_donation_at := some "t1" }

/-- An unacknowledged donation row for `donorA`. -/
def donationB : Donation :=
  { id := "don1", donor_id := "d1", amount := 200, campaign := "Fund",
    type := .one_time, method := .credit_card, acknowledged := false,
    tax_receipt_sent := false, received_at := "t1", notes := "",
    reference_number := "" }

/-- A second donation row for `donorA`. -/
def donationC : Donation :=
  { id := "don2", donor_id := "d1", amount := 300, campaign := "Capital",
    type := .one_time, method := .check, acknowledged := false,
    tax_receipt_sent := false, received_at := "t2", notes := "",
    reference_number := "" }

/-- `donorA` with the totals matching `donationB` and `donationC`. -/
def donorB : Donor :=
  { id := "d1", name := "A", email := "a@x", phone := "", type := .individual,
    tier := .bronze, total_given := 500, campaigns := ["Fund", "Capital"],
    notes := "", assigned_to := "", address := "", tax_id := "",
    created_at := "t0", updated_at := "t2", last_donation_at := some "t2" }

/-- A store holding `donorB` with its two donations. -/
def dbB : DB :=
  { donors := [donorB], donations := [donationB, donationC], campaigns := [] }

/-- A campaign record with a 10000 goal. -/
def campaignK : Campaign :=
  { id := "c1", name := "Fund", goal := 10000, start_date := "2025-01-01",
    end_date := "2025-12-31", description := "", status := "active",
    created_at := "t0" }

/-- A store with `campaignK` and donations of 1000 and 2000 towards it. -/
def dbK : DB :=
  { donors := [donorB],
    donations :=
      [{ id := "k1", donor_id := "d1", amount := 1000, campaign := "Fund",
         type := .one_time, method := .credit_card, acknowledged := false,
         tax_receipt_sent := false, received_at := "t1", notes := "",
         reference_number := "" },
       { id := "k2", donor_id := "d1", amount := 2000, campaign := "Fund",
         type := .recurring, method := .wire, acknowledged := false,
         tax_receipt_sent := false, received_at := "t2", notes := "",
         reference_number := "" }],
    campaigns := [campaignK] }

/-- An empty store. -/
def dbEmpty : DB := { donors := [], donations := [], campaigns := [] }

/-- First call of the two-donation scenario: 500 to "Fund". -/
def recArgs1 : RecArgs :=
  { amount := 500, campaign := "Fund", donation_type := .one_time,
    method := .credit_card, notes := "", reference_number := "",
    received_at := none, newId := "n1", wallClock := "w1", tierClock := "u1" }

/-- Second call of the two-donation scenario: 1500 to "Fund". -/
def recArgs2 : RecArgs :=
  { amount := 1500, campaign := "Fund", donation_type := .one_time,
    method := .credit_card, notes := "", reference_number := "",
    received_at := none, newId := "n2", wallClock := "w2", tierClock := "u2" }

/-- The donor row after adding a fresh donor to `dbEmpty` and running
`recArgs1` then `recArgs2`. -/
def donorW2 : Donor :=
  { id := "d1", name := "A", email := "a@x", phone := "", type := .individual,
    tier := .silver, total_given := 2000, campaigns := ["Fund"], notes := "",
    assigned_to := "", address := "", tax_id := "", created_at := "t0",
    updated_at := "u2", last_donation_at := some "w2" }

/-- The full store after that two-donation scenario. -/
def dbW2 : DB :=
  { donors := [donorW2],
    donations :=
      [mkDonation "n1" "d1" 500 "Fund" .one_time .credit_card "" "" "w1",
       mkDonation "n2" "d1" 1500 "Fund" .one_time .credit_card "" "" "w2"],
    campaigns := [] }

-- ---------------------------------------------------------------------------
-- Store lemmas
-- ---------------------------------------------------------------------------

theorem find?_map_update {α : Type} (l : List α) (p : α → Bool) (g : α → α)
    (hg : ∀ a, p (g a) = p a) :
    (l.map (fun a => if p a then g a else a)).find? p = (l.find? p).map g := by
  induction l with
  | nil => rfl
  | cons a t ih =>
      by_cases h : p a
      · simp [List.find?_cons, h, hg a]
      · simp only [List.map_cons]
        rw [if_neg (by simp [h])]
        simp [List.find?_cons, h, ih]

theorem get_donor_insertDonation (db : DB) (don : Donation) (i : String) :
    get_donor (insertDonation db don) i = get_donor db i := rfl

theorem get_donor_updateDonorTotals (db : DB) (i : String) (amount : ℚ)
    (now : String) :
    get_donor (updateDonorTotals db i amount now) i =
      (get_donor db i).map (fun d => donorAfterGift d amount now) :=
  find?_map_update _ _ _ (fun _ => rfl)

theorem get_donor_setDonorCampaigns (db : DB) (i : String) (cs : List String) :
    get_donor (setDonorCampaigns db i cs) i =
      (get_donor db i).map (fun d => donorWithCampaigns d cs) :=
  find?_map_update _ _ _ (fun _ => rfl)

theorem donations_updateDonorTotals (db : DB) (i : String) (a : ℚ)
    (n : String) :
    (updateDonorTotals db i a n).donations = db.donations := rfl

theorem donations_setDonorCampaigns (db : DB) (i : String) (cs : List String) :
    (setDonorCampaigns db i cs).donations = db.donations := rfl

theorem donations_updateDonorCampaigns (db : DB) (i c : String) :
    (updateDonorCampaigns db i c).donations = db.donations := by
  unfold updateDonorCampaigns
  cases get_donor db i with
  | none => rfl
  | some d => by_cases h : c ∈ d.campaigns <;> simp [h, setDonorCampaigns]

theorem donations_upgrade_tier (db : DB) (i t : String) :
    ((upgrade_tier db i t).1).donations = db.donations := by
  unfold upgrade_tier
  cases get_donor db i with
  | none => rfl
  | some d =>
      dsimp only
      split <;> rfl

theorem get_donor_upgrade_tier (db : DB) (i t : String) :
    get_donor (upgrade_tier db i t).1 i =
      (get_donor db i).map (fun d =>
        if _calculate_tier d.total_given ≠ d.tier then
          donorWithTier d (_calculate_tier d.total_given) t
        else d) := by
  unfold upgrade_tier
  cases h : get_donor db i with
  | none => simp [h]
  | some d =>
      dsimp only
      by_cases hne : _calculate_tier d.total_given ≠ d.tier
      · rw [if_pos hne]
        have hm := find?_map_update db.donors (fun x => x.id == i) (fun x => donorWithTier x (_calculate_tier d.total_given) t) (fun _ => rfl)
        unfold get_donor at h ⊢
        simp only [hm, h, Option.map_some']
        rw [if_pos hne]
      · rw [if_neg hne]
        simp only [h, Option.map_some']
        rw [if_neg hne]

theorem upgrade_tier_tier_eq (db : DB) (i t : String) (d' : Donor)
    (h : get_donor (upgrade_tier db i t).1 i = some d') :
    d'.tier = _calculate_tier d'.total_given := by
  rw [get_donor_upgrade_tier] at h
  cases hd : get_donor db i with
  | none => rw [hd] at h; simp at h
  | some d =>
      rw [hd] at h
      simp only [Option.map_some', Option.some.injEq] at h
      by_cases hne : _calculate_tier d.total_given ≠ d.tier
      · rw [if_pos hne] at h
        subst h
        rfl
      · rw [if_neg hne] at h
        subst h
        rw [not_ne_iff] at hne
        exact hne.symm

theorem get_donor_upgrade_tier_fields (db : DB) (i t : String) (d : Donor)
    (h : get_donor db i = some d) :
    ∃ d', get_donor (upgrade_tier db i t).1 i = some d' ∧
      d'.total_given = d.total_given ∧ d'.campaigns = d.campaigns ∧
      d'.tier = _calculate_tier d.total_given := by
  rw [get_donor_upgrade_tier, h]
  by_cases hne : _calculate_tier d.total_given ≠ d.tier
  · refine ⟨donorWithTier d (_calculate_tier d.total_given) t, ?_, rfl, rfl, rfl⟩
    simp only [Option.map_some', if_pos hne]
  · refine ⟨d, ?_, rfl, rfl, ?_⟩
    · simp only [Option.map_some', if_neg hne]
    · rw [not_ne_iff] at hne
      exact hne.symm

theorem record_donation_ok (db : DB) (i : String) (amount : ℚ)
    (campaign : String) (dtype : DonationType) (method : DonationMethod)
    (notes ref : String) (received_at : Option String) (newId wc tc : String)
    (donor : Donor) (h : get_donor db i = some donor) :
    ((record_donation db i amount campaign dtype method notes ref received_at
        newId wc tc).2 =
      Except.ok (mkDonation newId i amount campaign dtype method notes ref
        (pyOr received_at wc))) ∧
    ((record_donation db i amount campaign dtype method notes ref received_at
        newId wc tc).1.donations =
      db.donations ++ [mkDonation newId i amount campaign dtype method notes
        ref (pyOr received_at wc)]) ∧
    (∃ d', get_donor (record_donation db i amount campaign dtype method notes
        ref received_at newId wc tc).1 i = some d' ∧
      d'.total_given = donor.total_given + amount ∧
      d'.campaigns = (if campaign ∈ donor.campaigns then donor.campaigns
        else donor.campaigns ++ [campaign]) ∧
      d'.tier = _calculate_tier d'.total_given) := by
  have hrec : record_donation db i amount campaign dtype method notes ref
      received_at newId wc tc =
      ((upgrade_tier (recordTxn db i amount campaign
          (mkDonation newId i amount campaign dtype method notes ref
            (pyOr received_at wc)) (pyOr received_at wc)) i tc).1,
        Except.ok (mkDonation newId i amount campaign dtype method notes ref
          (pyOr received_at wc))) := by
    unfold record_donation
    rw [h]
  rw [hrec]
  refine ⟨rfl, ?_, ?_⟩
  · rw [donations_upgrade_tier]
    unfold recordTxn
    rw [donations_updateDonorCampaigns, donations_updateDonorTotals]
    rfl
  · have h2 : get_donor (updateDonorTotals (insertDonation db
        (mkDonation newId i amount campaign dtype method notes ref
          (pyOr received_at wc))) i amount (pyOr received_at wc)) i =
        some (donorAfterGift donor amount (pyOr received_at wc)) := by
      rw [get_donor_updateDonorTotals, get_donor_insertDonation, h]
      rfl
    unfold recordTxn updateDonorCampaigns
    rw [h2]
    dsimp only
    by_cases hc : campaign ∈ donor.campaigns
    · have hc' : campaign ∈ (donorAfterGift donor amount
        (pyOr received_at wc)).campaigns := hc
      rw [if_pos hc']
      obtain ⟨d', hd', ht, hcs, htier⟩ :=
        get_donor_upgrade_tier_fields _ i tc _ h2
      exact ⟨d', hd', by rw [ht]; rfl, by rw [hcs]; exact (if_pos hc).symm,
        by rw [htier, ht]⟩
    · have hc' : campaign ∉ (donorAfterGift donor amount
        (pyOr received_at wc)).campaigns := hc
      rw [if_neg hc']
      have h3 : get_donor (setDonorCampaigns (updateDonorTotals
          (insertDonation db (mkDonation newId i amount campaign dtype method
            notes ref (pyOr received_at wc))) i amount (pyOr received_at wc))
          i ((donorAfterGift donor amount
            (pyOr received_at wc)).campaigns ++ [campaign])) i =
          some (donorWithCampaigns (donorAfterGift donor amount
            (pyOr received_at wc)) (donor.campaigns ++ [campaign])) := by
        rw [get_donor_setDonorCampaigns, h2]
        rfl
      obtain ⟨d', hd', ht, hcs, htier⟩ :=
        get_donor_upgrade_tier_fields _ i tc _ h3
      exact ⟨d', hd', by rw [ht]; rfl, by rw [hcs]; exact (if_neg hc).symm,
        by rw [htier, ht]⟩

theorem record_donation_err (db : DB) (i : String) (amount : ℚ)
    (campaign : String) (dtype : DonationType) (method : DonationMethod)
    (notes ref : String) (received_at : Option String) (newId wc tc : String)
    (h : get_donor db i = none) :
    record_donation db i amount campaign dtype method notes ref received_at
      newId wc tc = (db, Except.error ("Donor " ++ i ++ " not found")) := by
  unfold record_donation
  rw [h]

-- ---------------------------------------------------------------------------
-- Deduplication lemmas
-- ---------------------------------------------------------------------------

theorem dedupFirst_append (l : List String) (c : String) :
    dedupFirst (l ++ [c]) =
      if c ∈ dedupFirst l then dedupFirst l else dedupFirst l ++ [c] := by
  simp [dedupFirst, List.foldl_append]

theorem dedupFirst_foldl_nodup (l : List String) :
    ∀ acc : List String, acc.Nodup →
      (l.foldl (fun acc c => if c ∈ acc then acc else acc ++ [c]) acc).Nodup := by
  induction l with
  | nil => intro acc h; exact h
  | cons a t ih =>
      intro acc h
      simp only [List.foldl_cons]
      by_cases ha : a ∈ acc
      · rw [if_pos ha]
        exact ih acc h
      · rw [if_neg ha]
        refine ih _ ?_
        simp [List.nodup_append, h, ha]

theorem dedupFirst_nodup (l : List String) : (dedupFirst l).Nodup :=
  dedupFirst_foldl_nodup l [] List.nodup_nil

-- ---------------------------------------------------------------------------
-- Invariant preservation
-- ---------------------------------------------------------------------------

theorem record_preserves_TotalInv (db : DB) (i : String) (amount : ℚ)
    (campaign : String) (dtype : DonationType) (method : DonationMethod)
    (notes ref : String) (received_at : Option String) (newId wc tc : String)
    (donor : Donor) (h : get_donor db i = some donor) (hinv : TotalInv db i) :
    TotalInv (record_donation db i amount campaign dtype method notes ref
      received_at newId wc tc).1 i := by
  obtain ⟨-, hdons, d', hd', ht, -, -⟩ :=
    record_donation_ok db i amount campaign dtype method notes ref received_at
      newId wc tc donor h
  intro d hd
  rw [hd'] at hd
  injection hd with hd
  subst hd
  have hsum : donated (record_donation db i amount campaign dtype method notes
      ref received_at newId wc tc).1 i = donated db i + amount := by
    unfold donated
    rw [hdons, List.filter_append]
    simp [mkDonation, donated]
  rw [hsum, ht, hinv donor h]

theorem record_preserves_CampInv (db : DB) (i : String) (amount : ℚ)
    (campaign : String) (dtype : DonationType) (method : DonationMethod)
    (notes ref : String) (received_at : Option String) (newId wc tc : String)
    (donor : Donor) (h : get_donor db i = some donor) (hinv : CampInv db i) :
    CampInv (record_donation db i amount campaign dtype method notes ref
      received_at newId wc tc).1 i := by
  obtain ⟨-, hdons, d', hd', -, hcs, -⟩ :=
    record_donation_ok db i amount campaign dtype method notes ref received_at
      newId wc tc donor h
  intro d hd
  rw [hd'] at hd
  injection hd with hd
  subst hd
  have htr : campaignTrace (record_donation db i amount campaign dtype method
      notes ref received_at newId wc tc).1 i =
      campaignTrace db i ++ [campaign] := by
    unfold campaignTrace
    rw [hdons, List.filter_append]
    simp [mkDonation]
  rw [htr, dedupFirst_append, hcs, hinv donor h]

theorem recordSeq_preserves_TotalInv (i : String) (calls : List RecArgs) :
    ∀ db db', recordSeq db i calls = some db' → TotalInv db i →
      TotalInv db' i := by
  induction calls with
  | nil =>
      intro db db' h hinv
      unfold recordSeq at h
      injection h with h
      subst h
      exact hinv
  | cons a t ih =>
      intro db db' h hinv
      unfold recordSeq at h
      cases hd : get_donor db i with
      | none =>
          rw [show (applyRec db i a).2 =
              Except.error ("Donor " ++ i ++ " not found") from
            congrArg Prod.snd (record_donation_err db i a.amount a.campaign
              a.donation_type a.method a.notes a.reference_number
              a.received_at a.newId a.wallClock a.tierClock hd)] at h
          exact absurd h (by simp)
      | some donor =>
          rw [show (applyRec db i a).2 = Except.ok (mkDonation a.newId i
              a.amount a.campaign a.donation_type a.method a.notes
              a.reference_number (pyOr a.received_at a.wallClock)) from
            (record_donation_ok db i a.amount a.campaign a.donation_type
              a.method a.notes a.reference_number a.received_at a.newId
              a.wallClock a.tierClock donor hd).1] at h
          exact ih _ _ h (record_preserves_TotalInv db i a.amount a.campaign
            a.donation_type a.method a.notes a.reference_number a.received_at
            a.newId a.wallClock a.tierClock donor hd hinv)

theorem recordSeq_preserves_CampInv (i : String) (calls : List RecArgs) :
    ∀ db db', recordSeq db i calls = some db' → CampInv db i →
      CampInv db' i := by
  induction calls with
  | nil =>
      intro db db' h hinv
      unfold recordSeq at h
      injection h with h
      subst h
      exact hinv
  | cons a t ih =>
      intro db db' h hinv
      unfold recordSeq at h
      cases hd : get_donor db i with
      | none =>
          rw [show (applyRec db i a).2 =
              Except.error ("Donor " ++ i ++ " not found") from
            congrArg Prod.snd (record_donation_err db i a.amount a.campaign
              a.donation_type a.method a.notes a.reference_number
              a.received_at a.newId a.wallClock a.tierClock hd)] at h
          exact absurd h (by simp)
      | some donor =>
          rw [show (applyRec db i a).2 = Except.ok (mkDonation a.newId i
              a.amount a.campaign a.donation_type a.method a.notes
              a.reference_number (pyOr a.received_at a.wallClock)) from
            (record_donation_ok db i a.amount a.campaign a.donation_type
              a.method a.notes a.reference_number a.received_at a.newId
              a.wallClock a.tierClock donor hd).1] at h
          exact ih _ _ h (record_preserves_CampInv db i a.amount a.campaign
            a.donation_type a.method a.notes a.reference_number a.received_at
            a.newId a.wallClock a.tierClock donor hd hinv)

-- ---------------------------------------------------------------------------
-- add_donor and donation-flag lemmas
-- ---------------------------------------------------------------------------

theorem map_update_id {α : Type} (l : List α) (p : α → Bool) (g : α → α)
    (h : ∀ x ∈ l, p x = false) :
    l.map (fun a => if p a then g a else a) = l := by
  induction l with
  | nil => rfl
  | cons a t ih =>
      rw [List.map_cons, if_neg (by simp [h a (List.mem_cons_self a t)]),
        ih (fun x hx => h x (List.mem_cons_of_mem a hx))]

theorem find?_append_of_none {α : Type} (l1 l2 : List α) (p : α → Bool)
    (h : l1.find? p = none) : (l1 ++ l2).find? p = l2.find? p := by
  induction l1 with
  | nil => rfl
  | cons a t ih =>
      rw [List.find?_eq_none] at h
      have ha : ¬ p a = true := h a (List.mem_cons_self a t)
      rw [List.cons_append, List.find?_cons_of_neg _ ha]
      exact ih (List.find?_eq_none.mpr
        (fun x hx => h x (List.mem_cons_of_mem a hx)))

theorem get_donor_add_donor (db : DB) (newId now name email phone : String)
    (dtype : DonorType) (notes assigned address tax : String)
    (h : get_donor db newId = none) :
    get_donor (add_donor db newId now name email phone dtype notes assigned
      address tax).1 newId =
      some (add_donor db newId now name email phone dtype notes assigned
        address tax).2 := by
  unfold get_donor at h
  unfold add_donor get_donor
  dsimp only
  rw [find?_append_of_none _ _ _ h]
  simp [List.find?_cons]

theorem add_donor_TotalInv (db : DB) (newId now name email phone : String)
    (dtype : DonorType) (notes assigned address tax : String)
    (hid : get_donor db newId = none)
    (hfresh : db.donations.filter (fun x => x.donor_id == newId) = []) :
    TotalInv (add_donor db newId now name email phone dtype notes assigned
      address tax).1 newId := by
  intro d hd
  rw [get_donor_add_donor db newId now name email phone dtype notes assigned
    address tax hid] at hd
  injection hd with hd
  subst hd
  show (0 : ℚ) = donated _ newId
  unfold donated
  have : (add_donor db newId now name email phone dtype notes assigned
      address tax).1.donations = db.donations := rfl
  rw [this, hfresh]
  rfl

theorem add_donor_CampInv (db : DB) (newId now name email phone : String)
    (dtype : DonorType) (notes assigned address tax : String)
    (hid : get_donor db newId = none)
    (hfresh : db.donations.filter (fun x => x.donor_id == newId) = []) :
    CampInv (add_donor db newId now name email phone dtype notes assigned
      address tax).1 newId := by
  intro d hd
  rw [get_donor_add_donor db newId now name email phone dtype notes assigned
    address tax hid] at hd
  injection hd with hd
  subst hd
  show ([] : List String) = dedupFirst (campaignTrace _ newId)
  unfold campaignTrace
  have : (add_donor db newId now name email phone dtype notes assigned
      address tax).1.donations = db.donations := rfl
  rw [this, hfresh]
  rfl

theorem record_donation_eq_of_found (db : DB) (i : String) (amount : ℚ)
    (campaign : String) (dtype : DonationType) (method : DonationMethod)
    (notes ref : String) (received_at : Option String) (newId wc tc : String)
    (donor : Donor) (h : get_donor db i = some donor) :
    record_donation db i amount campaign dtype method notes ref received_at
      newId wc tc =
      ((upgrade_tier (recordTxn db i amount campaign
          (mkDonation newId i amount campaign dtype method notes ref
            (pyOr received_at wc)) (pyOr received_at wc)) i tc).1,
        Except.ok (mkDonation newId i amount campaign dtype method notes ref
          (pyOr received_at wc))) := by
  unfold record_donation
  rw [h]

theorem get_donation_ack (db : DB) (did : String) :
    (acknowledge_donation db did).2 =
      (db.donations.find? (fun d => d.id == did)).map
        (fun d => { d with acknowledged := true }) := by
  unfold acknowledge_donation get_donation
  dsimp only
  exact find?_map_update _ _ _ (fun _ => rfl)

theorem get_donation_send_receipt (db : DB) (did : String) :
    (send_receipt db did).2 =
      (db.donations.find? (fun d => d.id == did)).map
        (fun d => { d with tax_receipt_sent := true, acknowledged := true }) := by
  unfold send_receipt get_donation
  dsimp only
  exact find?_map_update _ _ _ (fun _ => rfl)

-- ---------------------------------------------------------------------------
-- Claim theorems
-- ---------------------------------------------------------------------------

/-- C1: after every successful `record_donation` call on a donor, the donor
row subsequently fetched for that donor id has its stored `tier` equal to
the tier policy `_calculate_tier` applied to its stored `total_given`. -/
theorem C1_tier_eq_policy_after_record (db : DB) (i : String) (amount : ℚ)
    (campaign : String) (dtype : DonationType) (method : DonationMethod)
    (notes ref : String) (received_at : Option String) (newId wc tc : String)
    (don : Donation) (d' : Donor)
    (hok : (record_donation db i amount campaign dtype method notes ref
      received_at newId wc tc).2 = Except.ok don)
    (hd : get_donor (record_donation db i amount campaign dtype method notes
      ref received_at newId wc tc).1 i = some d') :
    d'.tier = _calculate_tier d'.total_given := by
  cases h : get_donor db i with
  | none =>
      rw [record_donation_err db i amount campaign dtype method notes ref
        received_at newId wc tc h] at hok
      exact absurd hok (by simp)
  | some donor =>
      rw [record_donation_eq_of_found db i amount campaign dtype method notes
        ref received_at newId wc tc donor h] at hd
      exact upgrade_tier_tier_eq _ _ _ _ hd

/-- C1 witness: the theorem applied to a concrete store (`dbA`, one bronze
donor with zero total) and a concrete 1500 donation. -/
theorem C1_tier_eq_policy_after_record_witness :
    (record_donation dbA "d1" 1500 "Fund" .one_time .credit_card "" "" none
      "don1" "t1" "t2").2 =
      Except.ok (mkDonation "don1" "d1" 1500 "Fund" .one_time .credit_card
        "" "" "t1") ∧
    get_donor (record_donation dbA "d1" 1500 "Fund" .one_time .credit_card
      "" "" none "don1" "t1" "t2").1 "d1" = some donorA' ∧
    donorA'.tier = _calculate_tier donorA'.total_given := by
  have h1 : (record_donation dbA "d1" 1500 "Fund" .one_time .credit_card ""
      "" none "don1" "t1" "t2").2 =
      Except.ok (mkDonation "don1" "d1" 1500 "Fund" .one_time .credit_card
        "" "" "t1") := by
    norm_num [record_donation, get_donor, dbA, donorA, List.find?, pyOr]
  have h2 : get_donor (record_donation dbA "d1" 1500 "Fund" .one_time
      .credit_card "" "" none "don1" "t1" "t2").1 "d1" = some donorA' := by
    norm_num [record_donation, recordTxn, insertDonation, updateDonorTotals,
      setDonorCampaigns, updateDonorCampaigns, upgrade_tier, get_donor,
      _calculate_tier, TIER_THRESHOLDS, pyOr, dbA, donorA, donorA',
      List.find?, mkDonation, donorAfterGift, donorWithCampaigns,
      donorWithTier]
  exact ⟨h1, h2, C1_tier_eq_policy_after_record dbA "d1" 1500 "Fund"
    .one_time .credit_card "" "" none "don1" "t1" "t2" _ _ h1 h2⟩

/-- C2: starting from a freshly added donor, after any sequence of
successful `record_donation` calls for that donor, the stored `total_given`
equals the exact sum of the amounts of all donation rows referencing the
donor's id. -/
theorem C2_total_eq_sum_after_seq (db0 : DB)
    (newId now name email phone : String) (dtype : DonorType)
    (notes assigned address tax : String) (calls : List RecArgs) (db' : DB)
    (d : Donor) (hid : get_donor db0 newId = none)
    (hfresh : db0.donations.filter (fun x => x.donor_id == newId) = [])
    (hseq : recordSeq (add_donor db0 newId now name email phone dtype notes
      assigned address tax).1 newId calls = some db')
    (hd : get_donor db' newId = some d) :
    d.total_given = donated db' newId :=
  recordSeq_preserves_TotalInv newId calls _ _ hseq
    (add_donor_TotalInv db0 newId now name email phone dtype notes assigned
      address tax hid hfresh) d hd

/-- C2 witness: a fresh donor in an empty store receives 500 and then 1500;
the stored total 2000 equals the sum over the two donation rows. -/
theorem C2_total_eq_sum_after_seq_witness :
    get_donor dbEmpty "d1" = none ∧
    recordSeq (add_donor dbEmpty "d1" "t0" "A" "a@x" "" .individual "" "" ""
      "").1 "d1" [recArgs1, recArgs2] = some dbW2 ∧
    donorW2.total_given = donated dbW2 "d1" := by
  have hseq : recordSeq (add_donor dbEmpty "d1" "t0" "A" "a@x" "" .individual
      "" "" "" "").1 "d1" [recArgs1, recArgs2] = some dbW2 := by
    norm_num [recordSeq, applyRec, add_donor, dbEmpty, recArgs1, recArgs2,
      record_donation, recordTxn, insertDonation, updateDonorTotals,
      setDonorCampaigns, updateDonorCampaigns, upgrade_tier, get_donor,
      _calculate_tier, TIER_THRESHOLDS, pyOr, List.find?, mkDonation,
      donorAfterGift, donorWithCampaigns, donorWithTier, dbW2, donorW2]
    intro h
    exact absurd h (by decide)
  exact ⟨rfl, hseq, C2_total_eq_sum_after_seq dbEmpty "d1" "t0" "A" "a@x" ""
    .individual "" "" "" "" [recArgs1, recArgs2] dbW2 donorW2 rfl rfl hseq
    rfl⟩

/-- C5: starting from a freshly added donor, after any sequence of
successful `record_donation` calls, the stored campaign list is
duplicate-free and equals the distinct campaign names of the donor's
donation rows in order of first appearance. -/
theorem C5_campaigns_dedup_after_seq (db0 : DB)
    (newId now name email phone : String) (dtype : DonorType)
    (notes assigned address tax : String) (calls : List RecArgs) (db' : DB)
    (d : Donor) (hid : get_donor db0 newId = none)
    (hfresh : db0.donations.filter (fun x => x.donor_id == newId) = [])
    (hseq : recordSeq (add_donor db0 newId now name email phone dtype notes
      assigned address tax).1 newId calls = some db')
    (hd : get_donor db' newId = some d) :
    d.campaigns.Nodup ∧
      d.campaigns = dedupFirst (campaignTrace db' newId) := by
  have h := recordSeq_preserves_CampInv newId calls _ _ hseq
    (add_donor_CampInv db0 newId now name email phone dtype notes assigned
      address tax hid hfresh) d hd
  exact ⟨h ▸ dedupFirst_nodup _, h⟩

/-- C5 witness: two donations to the same campaign name "Fund" leave exactly
one entry for that name in the donor's campaign list. -/
theorem C5_campaigns_dedup_after_seq_witness :
    donorW2.campaigns.Nodup ∧
    donorW2.campaigns = dedupFirst (campaignTrace dbW2 "d1") ∧
    donorW2.campaigns.count "Fund" = 1 := by
  have hseq : recordSeq (add_donor dbEmpty "d1" "t0" "A" "a@x" "" .individual
      "" "" "" "").1 "d1" [recArgs1, recArgs2] = some dbW2 := by
    norm_num [recordSeq, applyRec, add_donor, dbEmpty, recArgs1, recArgs2,
      record_donation, recordTxn, insertDonation, updateDonorTotals,
      setDonorCampaigns, updateDonorCampaigns, upgrade_tier, get_donor,
      _calculate_tier, TIER_THRESHOLDS, pyOr, List.find?, mkDonation,
      donorAfterGift, donorWithCampaigns, donorWithTier, dbW2, donorW2]
    intro h
    exact absurd h (by decide)
  obtain ⟨h1, h2⟩ := C5_campaigns_dedup_after_seq dbEmpty "d1" "t0" "A"
    "a@x" "" .individual "" "" "" "" [recArgs1, recArgs2] dbW2 donorW2 rfl
    rfl hseq rfl
  exact ⟨h1, h2, rfl⟩

/-- C6: `record_donation` on a donor id that resolves to no donor returns
the NotFound error and leaves the store exactly unchanged: no donation row
is created and no donor row is modified. -/
theorem C6_record_notfound_no_change (db : DB) (i : String) (amount : ℚ)
    (campaign : String) (dtype : DonationType) (method : DonationMethod)
    (notes ref : String) (received_at : Option String) (newId wc tc : String)
    (h : get_donor db i = none) :
    record_donation db i amount campaign dtype method notes ref received_at
      newId wc tc = (db, Except.error ("Donor " ++ i ++ " not found")) :=
  record_donation_err db i amount campaign dtype method notes ref received_at
    newId wc tc h

/-- C6 witness: recording for the unknown id "zz" against `dbA` errors and
returns the unchanged store. -/
theorem C6_record_notfound_no_change_witness :
    get_donor dbA "zz" = none ∧
    record_donation dbA "zz" 100 "Fund" .one_time .credit_card "" "" none
      "don9" "t1" "t2" =
      (dbA, Except.error ("Donor " ++ "zz" ++ " not found")) := by
  have h : get_donor dbA "zz" = none := by decide
  exact ⟨h, C6_record_notfound_no_change dbA "zz" 100 "Fund" .one_time
    .credit_card "" "" none "don9" "t1" "t2" h⟩

/-- C3: the multi-step donation-recording update is NOT one atomic unit.
The `with self.conn` transaction of `record_donation` (insert + donor
total/timestamp/campaign updates) commits at line 325, and `upgrade_tier`
(line 326) commits a separate, later transaction.  Evaluating the committed
states for a bronze donor with total 0 receiving 1500: the first committed
state already shows the new total 1500 while still showing the old tier
bronze, although the policy maps 1500 to silver; only the second committed
state shows the recomputed tier. -/
theorem C3_commit_gap_new_total_old_tier :
    (record_donation_commits dbA "d1" 1500 "Fund" .one_time .credit_card ""
      "" none "don1" "t1" "t2").length = 2 ∧
    ((record_donation_commits dbA "d1" 1500 "Fund" .one_time .credit_card ""
      "" none "don1" "t1" "t2").head?.bind (fun mid => get_donor mid
      "d1")).map (fun d => (d.total_given, d.tier)) =
      some (1500, DonorTier.bronze) ∧
    _calculate_tier 1500 = DonorTier.silver ∧
    ((record_donation_commits dbA "d1" 1500 "Fund" .one_time .credit_card ""
      "" none "don1" "t1" "t2").getLast?.bind (fun mid => get_donor mid
      "d1")).map (fun d => (d.total_given, d.tier)) =
      some (1500, DonorTier.silver) := by
  norm_num [record_donation_commits, recordTxn, insertDonation,
    updateDonorTotals, setDonorCampaigns, updateDonorCampaigns, upgrade_tier,
    get_donor, _calculate_tier, TIER_THRESHOLDS, pyOr, dbA, donorA,
    List.find?, mkDonation, donorAfterGift, donorWithCampaigns, donorWithTier,
    List.head?, List.getLast?]

/-- C4: the tier policy `_calculate_tier` is a total function of the
cumulative amount with exactly the ascending thresholds bronze below 1000,
silver on [1000, 10000), gold on [10000, 50000), platinum from 50000 on;
and the boundary inputs 1000, 10000, 50000 and 999.99 map to silver, gold,
platinum and bronze respectively. -/
theorem C4_tier_policy_thresholds :
    (∀ a : ℚ,
      (_calculate_tier a = DonorTier.bronze ↔ a < 1000) ∧
      (_calculate_tier a = DonorTier.silver ↔ 1000 ≤ a ∧ a < 10000) ∧
      (_calculate_tier a = DonorTier.gold ↔ 10000 ≤ a ∧ a < 50000) ∧
      (_calculate_tier a = DonorTier.platinum ↔ 50000 ≤ a)) ∧
    _calculate_tier 1000 = DonorTier.silver ∧
    _calculate_tier 10000 = DonorTier.gold ∧
    _calculate_tier 50000 = DonorTier.platinum ∧
    _calculate_tier (999.99 : ℚ) = DonorTier.bronze := by
  constructor
  · intro a
    unfold _calculate_tier
    simp only [TIER_THRESHOLDS]
    split_ifs with h1 h2 h3 <;>
      refine ⟨⟨fun hx => ?_, fun hx => ?_⟩, ⟨fun hx => ?_, fun hx => ?_⟩,
        ⟨fun hx => ?_, fun hx => ?_⟩, ⟨fun hx => ?_, fun hx => ?_⟩⟩ <;>
      first
        | rfl
        | (exact absurd hx (by decide))
        | (constructor <;> linarith)
        | linarith
  · refine ⟨?_, ?_, ?_, ?_⟩ <;>
      norm_num [_calculate_tier, TIER_THRESHOLDS]

/-- C4 witness: the threshold characterisation applied at 999.99 together
with the 1000 boundary case. -/
theorem C4_tier_policy_thresholds_witness :
    (_calculate_tier (999.99 : ℚ) = DonorTier.bronze ↔ (999.99 : ℚ) < 1000) ∧
    _calculate_tier 1000 = DonorTier.silver :=
  ⟨(C4_tier_policy_thresholds.1 (999.99 : ℚ)).1, C4_tier_policy_thresholds.2.1⟩

/-- C7: for an unknown donation id, `acknowledge_donation` and
`send_receipt` both signal NotFound by returning no donation and leave the
store exactly unchanged; for a known id, `acknowledge_donation` returns the
donation with `acknowledged := true`, returns it unchanged when it was
already acknowledged, and acknowledging twice equals acknowledging once. -/
theorem C7_ack_receipt_notfound_and_noop (db : DB) (did : String) :
    (get_donation db did = none →
      acknowledge_donation db did = (db, none) ∧
      send_receipt db did = (db, none)) ∧
    (∀ d, get_donation db did = some d →
      (acknowledge_donation db did).2 = some { d with acknowledged := true }) ∧
    (∀ d, get_donation db did = some d → d.acknowledged = true →
      (acknowledge_donation db did).2 = some d) ∧
    (acknowledge_donation (acknowledge_donation db did).1 did =
      acknowledge_donation db did) := by
  refine ⟨?_, ?_, ?_, ?_⟩
  · intro h
    unfold get_donation at h
    have hall : ∀ x ∈ db.donations, (x.id == did) = false := by
      intro x hx
      simpa using List.find?_eq_none.mp h x hx
    constructor
    · unfold acknowledge_donation get_donation
      dsimp only
      rw [map_update_id _ _ _ hall, h]
    · unfold send_receipt get_donation
      dsimp only
      rw [map_update_id _ _ _ hall, h]
  · intro d h
    unfold get_donation at h
    rw [get_donation_ack, h]
    rfl
  · intro d h hack
    unfold get_donation at h
    rw [get_donation_ack, h]
    cases d
    simp only at hack
    subst hack
    rfl
  · have hmap : (db.donations.map (fun d =>
        if d.id == did then { d with acknowledged := true } else d)).map
        (fun d => if d.id == did then { d with acknowledged := true }
          else d) =
        db.donations.map (fun d =>
          if d.id == did then { d with acknowledged := true } else d) := by
      rw [List.map_map]
      refine List.map_congr_left ?_
      intro a _
      by_cases h : (a.id == did) = true
      · simp [Function.comp, h]
      · simp [Function.comp, h]
    unfold acknowledge_donation get_donation
    dsimp only
    rw [hmap]

/-- C7 witness: against the concrete store `dbB`, the unknown id "zz" gives
`none` from both operations with the store unchanged, and the known id
"don1" comes back acknowledged. -/
theorem C7_ack_receipt_notfound_and_noop_witness :
    get_donation dbB "zz" = none ∧
    acknowledge_donation dbB "zz" = (dbB, none) ∧
    send_receipt dbB "zz" = (dbB, none) ∧
    (acknowledge_donation dbB "don1").2 =
      some { donationB with acknowledged := true } := by
  have h : get_donation dbB "zz" = none := by decide
  obtain ⟨ha, hs⟩ := (C7_ack_receipt_notfound_and_noop dbB "zz").1 h
  exact ⟨h, ha, hs,
    (C7_ack_receipt_notfound_and_noop dbB "don1").2.1 donationB rfl⟩

/-- C8: for an existing donation, `send_receipt` returns it with both
`tax_receipt_sent` and `acknowledged` set to true and every other field
unchanged, with no prior `acknowledge_donation` call needed. -/
theorem C8_send_receipt_implies_ack (db : DB) (did : String) (d : Donation)
    (h : get_donation db did = some d) :
    (send_receipt db did).2 =
      some { d with tax_receipt_sent := true, acknowledged := true } := by
  unfold get_donation at h
  rw [get_donation_send_receipt, h]
  rfl

/-- C8 witness: `donationB` (both flags false, never acknowledged) comes
back from `send_receipt` with both flags true. -/
theorem C8_send_receipt_implies_ack_witness :
    get_donation dbB "don1" = some donationB ∧
    (send_receipt dbB "don1").2 =
      some { donationB with tax_receipt_sent := true, acknowledged := true } ∧
    donationB.acknowledged = false := by
  exact ⟨rfl, C8_send_receipt_implies_ack dbB "don1" donationB rfl, rfl⟩

/-- C9: `ltv` fails with NotFound for an unknown donor id, returns the
all-zero report for a donor with no donations, and otherwise reports
`donation_count` donations and `average_gift` equal to the stored
`total_given` divided by the donation count, rounded to 2 decimals. -/
theorem C9_ltv_average_gift (db : DB) (i : String) :
    (get_donor db i = none →
      ltv db i = Except.error ("Donor " ++ i ++ " not found")) ∧
    (∀ donor, get_donor db i = some donor →
      (list_donations db (some i) none = [] →
        ltv db i = Except.ok (zeroLtvReport i donor.name)) ∧
      (list_donations db (some i) none ≠ [] →
        ∃ r, ltv db i = Except.ok r ∧
          r.donation_count = (list_donations db (some i) none).length ∧
          r.average_gift = pyRound (donor.total_given /
            ((list_donations db (some i) none).length : ℚ)) 2)) := by
  constructor
  · intro h
    unfold ltv
    rw [h]
  · intro donor h
    constructor
    · intro hempty
      unfold ltv
      rw [h]
      dsimp only
      rw [hempty]
      rfl
    · intro hne
      have hb : ¬ ((list_donations db (some i) none).isEmpty = true) := by
        simpa [List.isEmpty_iff] using hne
      unfold ltv
      rw [h]
      dsimp only
      rw [if_neg hb]
      exact ⟨_, rfl, rfl, rfl⟩

/-- C9 witness: in `dbB` the donor "d1" has two donations totalling 500;
the report exists with the claimed count and average; the unknown id "zz"
errors. -/
theorem C9_ltv_average_gift_witness :
    ltv dbB "zz" = Except.error ("Donor " ++ "zz" ++ " not found") ∧
    (∃ r, ltv dbB "d1" = Except.ok r ∧
      r.donation_count = (list_donations dbB (some "d1") none).length ∧
      r.average_gift = pyRound (donorB.total_given /
        ((list_donations dbB (some "d1") none).length : ℚ)) 2) := by
  have h1 : get_donor dbB "zz" = none := by decide
  have h2 : get_donor dbB "d1" = some donorB := rfl
  have hlen : (list_donations dbB (some "d1") none).length = 2 := by
    unfold list_donations
    rw [(List.perm_insertionSort _ _).length_eq]
    rfl
  have hne : list_donations dbB (some "d1") none ≠ [] := by
    intro h0
    rw [h0] at hlen
    exact absurd hlen (by decide)
  exact ⟨(C9_ltv_average_gift dbB "zz").1 h1,
    ((C9_ltv_average_gift dbB "d1").2 donorB h2).2 hne⟩

/-- C10: `campaign_summary.progress_pct` equals
`round(total_raised / goal * 100, 1)` where `total_raised` sums exactly the
donations whose campaign field equals the name and `goal` comes from the
matching campaign record, and equals 0 when the goal is 0 or no campaign
record with that name exists. -/
theorem C10_progress_pct (db : DB) (name : String) :
    (∀ c, get_campaign db name = some c → c.goal ≠ 0 →
      (campaign_summary db name).progress_pct =
        pyRound (totalRaised db name / c.goal * 100) 1) ∧
    (∀ c, get_campaign db name = some c → c.goal = 0 →
      (campaign_summary db name).progress_pct = 0) ∧
    (get_campaign db name = none →
      (campaign_summary db name).progress_pct = 0) := by
  refine ⟨?_, ?_, ?_⟩
  · intro c hc hne
    unfold campaign_summary
    rw [hc]
    dsimp only
    rw [if_pos hne]
  · intro c hc hz
    unfold campaign_summary
    rw [hc]
    dsimp only
    rw [if_neg (by simp [hz])]
  · intro hc
    unfold campaign_summary
    rw [hc]
    dsimp only
    rw [if_neg (by simp)]

/-- Rounding an integer-valued rational to the nearest integer returns it. -/
theorem roundHalfEven_intCast (n : ℤ) : roundHalfEven (n : ℚ) = n := by
  unfold roundHalfEven ratFloor
  rw [Rat.num_intCast, Rat.den_intCast]
  norm_num [Int.fdiv_one]

/-- C10 witness: `dbK` holds the campaign "Fund" with goal 10000 and two
donations of 1000 and 2000 towards it; progress is 30.0 percent. -/
theorem C10_progress_pct_witness :
    get_campaign dbK "Fund" = some campaignK ∧
    campaignK.goal ≠ 0 ∧
    (campaign_summary dbK "Fund").progress_pct =
      pyRound (totalRaised dbK "Fund" / campaignK.goal * 100) 1 ∧
    (campaign_summary dbK "Fund").progress_pct = 30 := by
  have h1 : get_campaign dbK "Fund" = some campaignK := rfl
  have h2 : campaignK.goal ≠ 0 := by norm_num [campaignK]
  have h3 := (C10_progress_pct dbK "Fund").1 campaignK h1 h2
  refine ⟨h1, h2, h3, ?_⟩
  rw [h3]
  have h4 : totalRaised dbK "Fund" / campaignK.goal * 100 = ((30 : ℤ) : ℚ) := by
    norm_num [totalRaised, dbK, campaignK, mkDonation, List.filter]
  rw [h4]
  unfold pyRound
  rw [show ((30 : ℤ) : ℚ) * (10 : ℚ) ^ 1 = ((300 : ℤ) : ℚ) by norm_num,
    roundHalfEven_intCast]
  norm_num
